import Mathlib

/-!
# Verification of the deltazip delta-composition and serving pipeline

Shallow embedding of `src/fmzip/pipelines/text_generation.py` and
`src/fmzip/pipelines/utils.py`.  Python dicts keyed by strings become
association lists, torch modules become an abstract `Module` type,
exceptions become `Option`/explicit error values threaded with the state,
and the external collaborators (tokenizer, `base_model.generate`,
`AutoFMZipModelForCausalLM.from_compressed`) are modelled by their
interface contracts as function parameters or allocation-tagged values.
-/

namespace FMZip

/-! ## Python string primitives

`pySplit s c` is the Python `s.split(c)` for a one-character separator:
splitting the empty string yields one empty field, and consecutive
separators yield empty fields. `joinDot` is `".".join(parts)`. -/

/-- Splitting a character list at a separator, Python `str.split` style:
the result is always nonempty and has one field per separator plus one. -/
def splitChars (sep : Char) : List Char → List (List Char)
  | [] => [[]]
  | c :: cs =>
    let r := splitChars sep cs
    if c = sep then [] :: r
    else
      match r with
      | [] => [[c]]
      | h :: t => (c :: h) :: t

/-- The Python `s.split(sep)` for a single-character separator `sep`. -/
def pySplit (s : String) (sep : Char) : List String :=
  (splitChars sep s.toList).map (fun cs => String.mk cs)

/-- The Python `".".join(parts)`. -/
def joinDot : List String → String
  | [] => ""
  | [p] => p
  | p :: rest => p ++ "." ++ joinDot rest

/-! ## GPU resource probe (`src/fmzip/pipelines/utils.py`)

The environment is passed explicitly: `env` is
`os.environ.get("CUDA_VISIBLE_DEVICES", None)` and `driverCount` is the
value `_get_gpu_count()` would report from the driver (external NVML). -/

/-- `get_available_gpus` from `utils.py`: if `CUDA_VISIBLE_DEVICES` is unset,
`list(range(_get_gpu_count()))`; otherwise `list(range(len(gpus.split(","))))`. -/
def get_available_gpus (env : Option String) (driverCount : Nat) : List Nat :=
  match env with
  | none => List.range driverCount
  | some gpus => List.range (pySplit gpus ',').length

/-- `get_gpu_count` from `utils.py`: `len(get_available_gpus())`. -/
def get_gpu_count (env : Option String) (driverCount : Nat) : Nat :=
  (get_available_gpus env driverCount).length

/-! ## Modules and submodule resolution -/

/-- An abstract torch module (identity matters, contents do not). -/
structure Module where
  id : Nat
deriving DecidableEq, Repr

/-- Association-list lookup, the embedding of `dict`/module-tree lookup
that raises (`None` here) when the key is absent. -/
def lookupStr {α : Type} : List (String × α) → String → Option α
  | [], _ => none
  | (k, v) :: rest, key => if k = key then some v else lookupStr rest key

/-- The resident base model: its module tree as a map from torch
qualified names (the root has name `""`) to submodules, plus the `delta`
attribute that `generate` patches with `setattr(self.base_model, 'delta', m)`
(`none` when the attribute has never been set). -/
structure BaseModel where
  submodules : List (String × Module)
  delta : Option Module
deriving DecidableEq, Repr

/-- The torch `model.get_submodule(key)`: resolves a qualified name or
raises `AttributeError` (modelled as `none`). -/
def BaseModel.get_submodule (m : BaseModel) (key : String) : Option Module :=
  lookupStr m.submodules key

/-- `_get_submodules` from `text_generation.py`:
`parent = model.get_submodule(".".join(key.split(".")[:-1]))`,
`target_name = key.split(".")[-1]`, `target = model.get_submodule(key)`;
`none` when a `get_submodule` call raises. -/
def _get_submodules (model : BaseModel) (key : String) :
    Option (Module × Module × String) :=
  match model.get_submodule (joinDot (pySplit key '.').dropLast) with
  | none => none
  | some parent =>
    let target_name := (pySplit key '.').getLastD ""
    match model.get_submodule key with
    | none => none
    | some target => some (parent, target, target_name)

/-- `get_submodules` from `utils.py` (textually the same algorithm as
`_get_submodules` in `text_generation.py`). -/
def get_submodules (model : BaseModel) (key : String) :
    Option (Module × Module × String) :=
  match model.get_submodule (joinDot (pySplit key '.').dropLast) with
  | none => none
  | some parent =>
    let target_name := (pySplit key '.').getLastD ""
    match model.get_submodule key with
    | none => none
    | some target => some (parent, target, target_name)

/-! ## The model pool and `load_delta`

`load_delta` runs
`self.model_pool[delta_model] = AutoFMZipModelForCausalLM.from_compressed(delta_model, unpack=False)`
unconditionally.  `from_compressed` is the external load adapter; each
call allocates a fresh checkpoint object, modelled by tagging the result
with an allocation counter that also counts adapter invocations. -/

/-- A checkpoint object returned by one `from_compressed` call; `alloc_id`
distinguishes separately allocated Python objects. -/
structure LoadedDelta where
  path : String
  alloc_id : Nat
deriving DecidableEq, Repr

/-- The pool state: `model_pool` is the `self.model_pool` dict, and
`next_alloc` counts the `from_compressed` adapter invocations made so far
(each producing a fresh object). -/
structure PoolState where
  model_pool : List (String × LoadedDelta)
  next_alloc : Nat
deriving DecidableEq, Repr

/-- The Python `d[k] = v` on a string-keyed dict (insertion order preserved). -/
def dictSet {α : Type} : List (String × α) → String → α → List (String × α)
  | [], k, v => [(k, v)]
  | (k', v') :: rest, k, v =>
    if k' = k then (k, v) :: rest else (k', v') :: dictSet rest k v

/-- `MixedPrecisionModel.load_delta`: always calls the adapter and stores
the freshly returned object under `delta_model`; no residence check, no
capacity check, no eviction, and it cannot fail. -/
def load_delta (st : PoolState) (delta_model : String) : PoolState :=
  { model_pool := dictSet st.model_pool delta_model ⟨delta_model, st.next_alloc⟩,
    next_alloc := st.next_alloc + 1 }

/-! ## Batch preparation and generation (`MixedPrecisionModel`)

The tokenizer is external: `tok` gives the token ids of one prompt and
`pad` is the pad token id (`tokenizer.pad_token_id`); `padding=True` pads
every row to the longest row of the batch.  `base_model.generate` is the
external HF generation loop; its contract is one output row per input
row, in order, each a function of the (delta-patched) model state and
that row — modelled by the parameter `rowGen`. -/

/-- Right-pad a token row to length `m` with the pad token. -/
def padTo (pad : Nat) (m : Nat) (r : List Nat) : List Nat :=
  r ++ List.replicate (m - r.length) pad

/-- Length of the longest row of a tokenized batch. -/
def batchMaxLen (rows : List (List Nat)) : Nat :=
  (rows.map List.length).foldr Nat.max 0

/-- `tokenizer([...], padding=True)`: tokenize each prompt and pad to the
longest prompt in the batch. -/
def tokenizeBatch (pad : Nat) (tok : String → List Nat)
    (prompts : List String) : List (List Nat) :=
  let rows := prompts.map tok
  rows.map (padTo pad (batchMaxLen rows))

/-- `MixedPrecisionModel.prepare_batch`: tokenizes
`[inp[0] for inp in inputs]` with padding (the lora bookkeeping in the
source is commented out; device moves are not observable here). It
performs no size check and cannot fail. -/
def prepare_batch (pad : Nat) (tok : String → List Nat)
    (inputs : List (String × String)) : List (List Nat) :=
  tokenizeBatch pad tok (inputs.map (fun inp => inp.1))

/-- A delta checkpoint as `generate` consumes it:
`self.model_pool[delta].model.named_modules()` as a list of
(qualified name, module) pairs. -/
structure DeltaCheckpoint where
  named_modules : List (String × Module)
deriving DecidableEq, Repr

/-- A Python exception escaping `generate`. -/
inductive PyError
  | keyError (key : String)
  | attributeError
deriving DecidableEq, Repr

/-- The inner loop of `generate` for one delta:
for each `(key, module)` of the checkpoint, compute
`_get_submodules(self.base_model, key)` (the result is bound to an unused
variable; if it raises, the loop aborts with `AttributeError` keeping all
mutations made so far) and then `setattr(self.base_model, 'delta', module)`. -/
def bindLoop (base : BaseModel) : List (String × Module) →
    Option PyError × BaseModel
  | [] => (none, base)
  | (key, module) :: rest =>
    match _get_submodules base key with
    | none => (some .attributeError, base)
    | some _ => bindLoop { base with delta := some module } rest

/-- The outer loop of `generate` over `deltas = [x[1] for x in queries]`
(duplicates included): look each delta up in `self.model_pool`
(`KeyError` if absent) and run the binding loop over its modules;
mutations made before a raise persist. -/
def generateBind (pool : List (String × DeltaCheckpoint)) (base : BaseModel) :
    List String → Option PyError × BaseModel
  | [] => (none, base)
  | d :: rest =>
    match lookupStr pool d with
    | none => (some (.keyError d), base)
    | some ckpt =>
      match bindLoop base ckpt.named_modules with
      | (some e, b) => (some e, b)
      | (none, b) => generateBind pool b rest

/-- Outcome of one `MixedPrecisionModel.generate` call: the escaping
exception (if any), the base-model state after the call (the mutations
are in place on `self.base_model` and survive the call either way), and
the returned output rows (empty when an exception escaped before
`self.base_model.generate` ran). -/
structure GenResult where
  error : Option PyError
  base : BaseModel
  output : List Nat
deriving DecidableEq, Repr

/-- `MixedPrecisionModel.generate`: prepare the batch from all queries at
once, run the per-query delta binding loops on `self.base_model`, then a
single `self.base_model.generate(**batch)` over the whole batch under
whatever `delta` attribute the loops left bound. -/
def generate (pad : Nat) (tok : String → List Nat)
    (rowGen : BaseModel → List Nat → Nat)
    (pool : List (String × DeltaCheckpoint)) (base : BaseModel)
    (queries : List (String × String)) : GenResult :=
  let batch := prepare_batch pad tok queries
  let deltas := queries.map (fun x => x.2)
  match generateBind pool base deltas with
  | (some e, b) => { error := some e, base := b, output := [] }
  | (none, b) => { error := none, base := b, output := batch.map (rowGen b) }

/-- A concrete tokenizer for evaluating the pipeline on closed inputs. -/
def tokLen : String → List Nat := fun s => [s.length]

/-- A concrete external generation contract that reveals which `delta`
module was bound on the base model when the forward pass ran. -/
def rowGenDelta : BaseModel → List Nat → Nat := fun b _ =>
  match b.delta with
  | none => 0
  | some m => m.id

/-! ## Theorems -/

/-- C1: the claim says one generate cycle (bind, generate, unbind) leaves
the base model observationally equal to its pre-call state.  In the code
there is no unbind at all: evaluating `generate` on a loaded delta with
modules named `""` and `"lin"` succeeds but leaves the `delta` attribute
of the base model set to the last module of the checkpoint, so the
post-call base model differs from the pre-call one. -/
theorem c1_generate_does_not_restore :
    (generate 0 tokLen rowGenDelta
        [("d1", ⟨[("", ⟨10⟩), ("lin", ⟨11⟩)]⟩)]
        ⟨[("", ⟨0⟩), ("lin", ⟨1⟩)], none⟩
        [("hello", "d1")]).error = none ∧
    (generate 0 tokLen rowGenDelta
        [("d1", ⟨[("", ⟨10⟩), ("lin", ⟨11⟩)]⟩)]
        ⟨[("", ⟨0⟩), ("lin", ⟨1⟩)], none⟩
        [("hello", "d1")]).base.delta = some ⟨11⟩ ∧
    (generate 0 tokLen rowGenDelta
        [("d1", ⟨[("", ⟨10⟩), ("lin", ⟨11⟩)]⟩)]
        ⟨[("", ⟨0⟩), ("lin", ⟨1⟩)], none⟩
        [("hello", "d1")]).base ≠ ⟨[("", ⟨0⟩), ("lin", ⟨1⟩)], none⟩ := by
  decide

/-- C2: the claim says a batch of 4 requests over 2 distinct deltas is
split into 2 homogeneous sub-batches, each executed under its own
bind/unbind.  The code instead executes the whole batch as one forward
pass after binding every delta of every query in sequence, so the last
delta wins: with deltas `d1, d1, d2, d2` (modules 10 and 20), all four
output rows are produced under the `d2` binding (module 20), including
the two rows that requested `d1`. -/
theorem c2_mixed_batch_single_forward :
    (generate 0 tokLen rowGenDelta
        [("d1", ⟨[("", ⟨10⟩)]⟩), ("d2", ⟨[("", ⟨20⟩)]⟩)]
        ⟨[("", ⟨0⟩)], none⟩
        [("a", "d1"), ("b", "d1"), ("c", "d2"), ("e", "d2")]).error = none ∧
    (generate 0 tokLen rowGenDelta
        [("d1", ⟨[("", ⟨10⟩)]⟩), ("d2", ⟨[("", ⟨20⟩)]⟩)]
        ⟨[("", ⟨0⟩)], none⟩
        [("a", "d1"), ("b", "d1"), ("c", "d2"), ("e", "d2")]).output
      = [20, 20, 20, 20] ∧
    (generate 0 tokLen rowGenDelta
        [("d1", ⟨[("", ⟨10⟩)]⟩), ("d2", ⟨[("", ⟨20⟩)]⟩)]
        ⟨[("", ⟨0⟩)], none⟩
        [("a", "d1"), ("b", "d1"), ("c", "d2"), ("e", "d2")]).base.delta
      = some ⟨20⟩ := by
  decide

/-- C3: when `generate` returns (no exception escapes), its output has
one row per input query and the i-th row is the external generation
result for the i-th tokenized prompt (padded to the batch maximum) under
the final model state — output order matches input order. -/
theorem c3_generate_order_preserving
    (pad : Nat) (tok : String → List Nat) (rowGen : BaseModel → List Nat → Nat)
    (pool : List (String × DeltaCheckpoint)) (base : BaseModel)
    (queries : List (String × String))
    (hok : (generate pad tok rowGen pool base queries).error = none) :
    (generate pad tok rowGen pool base queries).output.length = queries.length ∧
    ∀ i p d, queries.get? i = some (p, d) →
      (generate pad tok rowGen pool base queries).output.get? i =
        some (rowGen (generate pad tok rowGen pool base queries).base
          (padTo pad (batchMaxLen ((queries.map (fun q => q.1)).map tok))
            (tok p))) := by
  rcases h : generateBind pool base (queries.map (fun x => x.2)) with ⟨oe, b⟩
  cases oe with
  | some e =>
    exfalso
    have hbad : (generate pad tok rowGen pool base queries).error = some e := by
      simp [generate, h]
    rw [hbad] at hok
    exact Option.noConfusion hok
  | none =>
    have hg : generate pad tok rowGen pool base queries =
        { error := none, base := b,
          output := (prepare_batch pad tok queries).map (rowGen b) } := by
      simp [generate, h]
    rw [hg]
    constructor
    · simp [prepare_batch, tokenizeBatch]
    · intro i p d hq
      have hp : (queries.map (fun q => q.1)).get? i = some p := by
        rw [List.get?_map, hq]
        rfl
      have hrow : (prepare_batch pad tok queries).get? i =
          some (padTo pad
            (batchMaxLen ((queries.map (fun q => q.1)).map tok)) (tok p)) := by
        show (((queries.map (fun q => q.1)).map tok).map
            (padTo pad (batchMaxLen ((queries.map (fun q => q.1)).map tok)))).get? i
          = _
        rw [List.get?_map, List.get?_map, hp]
        rfl
      rw [List.get?_map, hrow]
      rfl

/-- C3 witness: a concrete successful run of the pipeline on two queries,
instantiating the order-preservation theorem at row 1. -/
theorem c3_generate_order_preserving_witness :
    (generate 0 tokLen rowGenDelta [("d", ⟨[("", ⟨7⟩)]⟩)]
        ⟨[("", ⟨0⟩)], none⟩ [("ab", "d"), ("xyz", "d")]).error = none ∧
    (generate 0 tokLen rowGenDelta [("d", ⟨[("", ⟨7⟩)]⟩)]
        ⟨[("", ⟨0⟩)], none⟩ [("ab", "d"), ("xyz", "d")]).output.length = 2 ∧
    (generate 0 tokLen rowGenDelta [("d", ⟨[("", ⟨7⟩)]⟩)]
        ⟨[("", ⟨0⟩)], none⟩ [("ab", "d"), ("xyz", "d")]).output.get? 1 =
      some (rowGenDelta
        (generate 0 tokLen rowGenDelta [("d", ⟨[("", ⟨7⟩)]⟩)]
          ⟨[("", ⟨0⟩)], none⟩ [("ab", "d"), ("xyz", "d")]).base
        (padTo 0
          (batchMaxLen (([("ab", "d"), ("xyz", "d")].map
            (fun q : String × String => q.1)).map tokLen))
          (tokLen "xyz"))) := by
  have h := c3_generate_order_preserving 0 tokLen rowGenDelta
    [("d", ⟨[("", ⟨7⟩)]⟩)] ⟨[("", ⟨0⟩)], none⟩
    [("ab", "d"), ("xyz", "d")] (by decide)
  exact ⟨by decide, h.1, h.2 1 "xyz" "d" (by decide)⟩

/-- C4: the claim says loading the same identifier twice performs exactly
one adapter load and leaves the pool mapping the identifier to the same
checkpoint object.  The code reloads unconditionally: after two
`load_delta "d"` calls the adapter has run twice, and the pool entry is
the second, freshly allocated object, not the one stored by the first
call. -/
theorem c4_load_delta_not_idempotent :
    (load_delta (load_delta ⟨[], 0⟩ "d") "d").next_alloc = 2 ∧
    lookupStr (load_delta (load_delta ⟨[], 0⟩ "d") "d").model_pool "d"
      = some ⟨"d", 1⟩ ∧
    lookupStr (load_delta (load_delta ⟨[], 0⟩ "d") "d").model_pool "d"
      ≠ lookupStr (load_delta ⟨[], 0⟩ "d").model_pool "d" := by
  decide

/-- C5: the claim says exceeding `max_num_deltas` triggers LRU eviction
of a zero-refcount entry, or `CapacityError` when none is evictable.  The
pool in the code is an unbounded dict with no capacity parameter, no
reference counts and no eviction: loading three distinct identifiers from
an empty pool leaves all three resident (so with any cap of 2, the third
load neither evicts nor fails), and `load_delta` is total — it cannot
raise at all. -/
theorem c5_pool_never_evicts :
    (load_delta (load_delta (load_delta ⟨[], 0⟩ "a") "b") "c").model_pool.length
      = 3 ∧
    (load_delta (load_delta (load_delta ⟨[], 0⟩ "a") "b") "c").model_pool.map
        Prod.fst = ["a", "b", "c"] := by
  decide

/-- C6: the claim says a checkpoint with an unresolvable submodule name
fails to bind with `TopologyMismatchError` and leaves the base model
unmodified.  In the code the resolver raises a plain `AttributeError`
(there is no `TopologyMismatchError`), and the loop has already patched
the `delta` attribute during the earlier iterations, so the base model IS
modified when the exception escapes: with checkpoint modules `""` (always
resolvable, module 10) and `"foo.bar"` (unresolvable), `generate` raises
after setting `delta` to module 10. -/
theorem c6_bad_key_mutates_base :
    (generate 0 tokLen rowGenDelta
        [("d", ⟨[("", ⟨10⟩), ("foo.bar", ⟨11⟩)]⟩)]
        ⟨[("", ⟨0⟩)], none⟩ [("p", "d")]).error = some .attributeError ∧
    (generate 0 tokLen rowGenDelta
        [("d", ⟨[("", ⟨10⟩), ("foo.bar", ⟨11⟩)]⟩)]
        ⟨[("", ⟨0⟩)], none⟩ [("p", "d")]).base.delta = some ⟨10⟩ ∧
    (generate 0 tokLen rowGenDelta
        [("d", ⟨[("", ⟨10⟩), ("foo.bar", ⟨11⟩)]⟩)]
        ⟨[("", ⟨0⟩)], none⟩ [("p", "d")]).base ≠ ⟨[("", ⟨0⟩)], none⟩ := by
  decide

/-- C7: the claim says a batch larger than the configured maximum fails
with `BatchTooLargeError`.  `prepare_batch` in the code has no size
parameter and no check: it is a total function producing one tokenized
row per input for every input list, so a 5-request batch is prepared in
full under any claimed maximum below 5 and no error is ever raised. -/
theorem c7_prepare_batch_never_rejects :
    (∀ (pad : Nat) (tok : String → List Nat)
        (inputs : List (String × String)),
        (prepare_batch pad tok inputs).length = inputs.length) ∧
    (prepare_batch 0 tokLen
        [("a", "d"), ("bb", "d"), ("ccc", "d"), ("dddd", "d"),
          ("eeeee", "d")]).length = 5 := by
  constructor
  · intro pad tok inputs
    simp [prepare_batch, tokenizeBatch]
  · decide

/-- C8: the GPU probe honors the visibility-restriction variable: when
`CUDA_VISIBLE_DEVICES` is a string with `n` comma-separated fields,
`get_available_gpus` is `[0, ..., n-1]`; when it is unset, it is
`[0, ..., driverCount-1]`; and `get_gpu_count` always equals the length
of that sequence. -/
theorem c8_gpu_probe (env : Option String) (driverCount : Nat) :
    (∀ s n, env = some s → (pySplit s ',').length = n →
        get_available_gpus env driverCount = List.range n) ∧
    (env = none → get_available_gpus env driverCount = List.range driverCount) ∧
    get_gpu_count env driverCount = (get_available_gpus env driverCount).length := by
  refine ⟨?_, ?_, rfl⟩
  · intro s n hs hn
    subst hs
    subst hn
    rfl
  · intro hn
    subst hn
    rfl

/-- C8 witness: the probe evaluated with the variable set to three fields
and with it unset, through the theorem. -/
theorem c8_gpu_probe_witness :
    (pySplit "0,1,2" ',').length = 3 ∧
    get_available_gpus (some "0,1,2") 7 = List.range 3 ∧
    get_available_gpus none 7 = List.range 7 ∧
    get_gpu_count (some "0,1,2") 7 =
      (get_available_gpus (some "0,1,2") 7).length := by
  exact ⟨by decide,
    (c8_gpu_probe (some "0,1,2") 7).1 "0,1,2" 3 rfl (by decide),
    (c8_gpu_probe none 7).2.1 rfl,
    (c8_gpu_probe (some "0,1,2") 7).2.2⟩

/-- C9: the private helper in `text_generation.py` and the public helper
in `utils.py` compute the same (parent, target, leaf-name) resolution for
every model and every qualified key. -/
theorem c9_submodule_helpers_agree :
    ∀ (model : BaseModel) (key : String),
      _get_submodules model key = get_submodules model key :=
  fun _ _ => rfl

/-- C10: with `CUDA_VISIBLE_DEVICES` set to the empty string,
`get_available_gpus` returns `[0]` (one field from splitting the empty
string on commas), not the empty sequence. -/
theorem c10_empty_visible_devices :
    ∀ driverCount : Nat, get_available_gpus (some "") driverCount = [0] :=
  fun _ => rfl

end FMZip
